import Mathlib

/-!
Shallow embedding of the address-resolution pipeline of the Portland Maps
MCP server (`src/client.ts`, class `PortlandMapsClient`): the two-tier
geocoding resolver (`geocodeWithArcGIS`, `geocodeWithWorldGeocoder`), the
per-suggestion candidate enrichment, the bounding-box filter and the
truncation performed by `resolveAddress`.

HTTP effects are modelled by passing the outcome of each remote call as an
explicit value: a `FetchOutcome` for each geocoder endpoint (indexed by the
address text via an environment function) and a `SuggestOutcome` for the
suggestion endpoint.  JavaScript numbers are modelled as rationals,
`Math.round` as `jsRound`, and thrown exceptions as `Except.error`.
-/

namespace PortlandMaps

/-- The three provenance tags of `AddressCandidate.source` in `client.ts`:
`'portlandmaps_api' | 'arcgis_geocoder' | 'internal_fallback'`. -/
inductive Source where
  | portlandmaps_api
  | arcgis_geocoder
  | internal_fallback
deriving DecidableEq, Repr

/-- A geocoder candidate's `location` field: `{x, y}`. -/
structure GeoLocation where
  x : ℚ
  y : ℚ
deriving DecidableEq, Repr

/-- One entry of a geocoder response's `candidates` array:
`{location: {x, y}, score}`. -/
structure GeoCandidate where
  location : GeoLocation
  score : ℚ
deriving DecidableEq, Repr

/-- The value produced by a successful geocode:
`{x: number, y: number, score: number}` in `client.ts`. -/
structure GeoResult where
  x : ℚ
  y : ℚ
  score : ℚ
deriving DecidableEq, Repr

/-- Outcome of one `fetch` + `response.json()` against a geocoder endpoint:
`error` models a network failure or thrown exception (including a JSON
parse failure), `httpFail` a response with `!response.ok` (non-2xx), and
`ok cs` a 2xx response whose parsed `candidates` array is `cs` (a missing
`candidates` field behaves as the empty list, since
`data.candidates && data.candidates.length > 0` is then falsy). -/
inductive FetchOutcome where
  | error
  | httpFail
  | ok (candidates : List GeoCandidate)
deriving DecidableEq, Repr

/-- `geocodeWithWorldGeocoder` from `client.ts`: returns `null` on non-2xx,
on an empty/missing candidate list, or on any exception; otherwise the
first candidate's location and score. -/
def geocodeWithWorldGeocoder (world : FetchOutcome) : Option GeoResult :=
  match world with
  | FetchOutcome.error => none
  | FetchOutcome.httpFail => none
  | FetchOutcome.ok [] => none
  | FetchOutcome.ok (c :: _) => some ⟨c.location.x, c.location.y, c.score⟩

/-- `geocodeWithArcGIS` from `client.ts`: tries the Oregon geocoder first
and falls back to `geocodeWithWorldGeocoder` on non-2xx, on an
empty/missing candidate list, or on any exception.  The second component
records whether the World geocoder was invoked. -/
def geocodeWithArcGIS (oregon world : FetchOutcome) : Option GeoResult × Bool :=
  match oregon with
  | FetchOutcome.error => (geocodeWithWorldGeocoder world, true)
  | FetchOutcome.httpFail => (geocodeWithWorldGeocoder world, true)
  | FetchOutcome.ok [] => (geocodeWithWorldGeocoder world, true)
  | FetchOutcome.ok (c :: _) => (some ⟨c.location.x, c.location.y, c.score⟩, false)

/-- The `PropertySuggestion` interface of `client.ts`. -/
structure PropertySuggestion where
  label : String
  value : String
  type : String
  city : Option String
  county : Option String
deriving DecidableEq, Repr

/-- The `AddressCandidate` interface of `client.ts`, with `x_lon`/`y_lat`
as rationals and `score` as an integer (it is always produced by integer
arithmetic or `Math.round`). -/
structure AddressCandidate where
  normalized_address : String
  score : ℤ
  property_id : Option String
  taxlot_id : Option String
  x_lon : ℚ
  y_lat : ℚ
  source : Source
  raw : Option PropertySuggestion
deriving DecidableEq, Repr

/-- The `ResolveAddressResult` interface of `client.ts`. -/
structure ResolveAddressResult where
  candidates : List AddressCandidate
  query : String
  max_results : ℕ
  bbox : Option (List ℚ)
deriving DecidableEq, Repr

/-- JavaScript `Math.round`: rounds half toward positive infinity. -/
def jsRound (q : ℚ) : ℤ := ⌊q + 1 / 2⌋

/-- The fixed fallback longitude in `resolveAddress`
(`let x_lon = -122.6765; // Portland center as fallback`). -/
def fallbackLon : ℚ := -122.6765

/-- The fixed fallback latitude in `resolveAddress` (`let y_lat = 45.5155`). -/
def fallbackLat : ℚ := 45.5155

/-- The body of the per-suggestion arrow function inside `resolveAddress`
(`suggestions.map(async (suggestion, index) => ...)`), for the suggestion
at zero-based `index`.  `env` gives, per address text, the outcomes of the
Oregon and World geocoder calls for that text.  The quadruple `st` mirrors
the four `let`-mutable locals `x_lon, y_lat, score, source`, initialised to
the fallback point, `baseScore` and `'internal_fallback'` and then
reassigned on the two branches of `if (geocodeResult)`. -/
def enrichOne (env : String → FetchOutcome × FetchOutcome) (includeRaw : Bool)
    (index : ℕ) (s : PropertySuggestion) : AddressCandidate :=
  let baseScore : ℤ := max (100 - (index : ℤ) * 5) 50
  let geocodeResult := (geocodeWithArcGIS (env s.label).1 (env s.label).2).1
  let st : ℚ × ℚ × ℤ × Source := (fallbackLon, fallbackLat, baseScore, Source.internal_fallback)
  let st : ℚ × ℚ × ℤ × Source :=
    match geocodeResult with
    | some g => (g.x, g.y, jsRound (((baseScore : ℚ) + g.score) / 2), Source.arcgis_geocoder)
    | none => (st.1, st.2.1, st.2.2.1, Source.portlandmaps_api)
  { normalized_address := s.label
    score := st.2.2.1
    property_id := if s.value = "" then none else some s.value
    taxlot_id := none
    x_lon := st.1
    y_lat := st.2.1
    source := st.2.2.2
    raw := if includeRaw then some s else none }

/-- The full fan-out of `resolveAddress`: one `enrichOne` per suggestion,
in input order, with each suggestion's zero-based index. -/
def enrichAll (env : String → FetchOutcome × FetchOutcome) (includeRaw : Bool)
    (suggestions : List PropertySuggestion) : List AddressCandidate :=
  suggestions.enum.map (fun p => enrichOne env includeRaw p.1 p.2)

/-- The bounding-box filter of `resolveAddress`: applied only when a `bbox`
is supplied and has exactly four components `[minLon, minLat, maxLon,
maxLat]`; otherwise the candidate list passes through unchanged. -/
def bboxFilter (bbox : Option (List ℚ)) (candidates : List AddressCandidate) :
    List AddressCandidate :=
  match bbox with
  | some [minLon, minLat, maxLon, maxLat] =>
      candidates.filter (fun c =>
        decide (minLon ≤ c.x_lon ∧ c.x_lon ≤ maxLon ∧ minLat ≤ c.y_lat ∧ c.y_lat ≤ maxLat))
  | _ => candidates

/-- Outcome of the suggestion-endpoint `fetch` in `resolveAddress`:
`error` models a network failure or thrown exception, `httpFail` a
non-2xx status (the code then throws), and `ok l` a 2xx response whose
`data.candidates || []` is `l`. -/
inductive SuggestOutcome where
  | error
  | httpFail
  | ok (candidates : List PropertySuggestion)
deriving DecidableEq, Repr

/-- `resolveAddress` from `client.ts`.  A suggestion-lookup failure throws
(the outer `catch` rewraps the message); otherwise every suggestion is
enriched, the bounding-box filter is applied, and the list is truncated to
`maxResults` with `slice(0, maxResults)`. -/
def resolveAddress (env : String → FetchOutcome × FetchOutcome)
    (suggestResponse : SuggestOutcome) (query : String) (maxResults : ℕ)
    (bbox : Option (List ℚ)) (includeRaw : Bool) :
    Except String ResolveAddressResult :=
  match suggestResponse with
  | SuggestOutcome.error =>
      Except.error "Failed to resolve address: network error"
  | SuggestOutcome.httpFail =>
      Except.error "Failed to resolve address: API request failed"
  | SuggestOutcome.ok suggestions =>
      let candidates := enrichAll env includeRaw suggestions
      let candidates := bboxFilter bbox candidates
      let candidates := candidates.take maxResults
      Except.ok
        { candidates := candidates
          query := query
          max_results := maxResults
          bbox := bbox }

/-- The suggestion-endpoint URL built by `resolveAddress`, with
`encode` standing for `encodeURIComponent`:
`${this.apiUrl}/suggest/?query=${...}&city=Portland&count=${maxResults}`. -/
def suggestRequestUrl (encode : String → String) (query : String)
    (maxResults : ℕ) : String :=
  "https://www.portlandmaps.com/api" ++ "/suggest/?query=" ++ encode query ++
    "&city=Portland&count=" ++ toString maxResults

/-- A geocoder tier "failed or errored or returned no candidates": the
fetch threw, was non-2xx, or parsed to an empty candidate list. -/
def tierFailedOrEmpty (o : FetchOutcome) : Prop :=
  o = FetchOutcome.error ∨ o = FetchOutcome.httpFail ∨ o = FetchOutcome.ok []

instance (o : FetchOutcome) : Decidable (tierFailedOrEmpty o) := by
  unfold tierFailedOrEmpty
  infer_instance

/-- A geocoder call returned at least one candidate (2xx with a non-empty
candidate array). -/
def tierReturnedCandidate (o : FetchOutcome) : Prop :=
  match o with
  | FetchOutcome.ok (_ :: _) => True
  | _ => False

instance (o : FetchOutcome) : Decidable (tierReturnedCandidate o) := by
  unfold tierReturnedCandidate
  cases o with
  | error => exact inferInstanceAs (Decidable False)
  | httpFail => exact inferInstanceAs (Decidable False)
  | ok cs => cases cs <;> simp <;> infer_instance

theorem worldGeocoder_eq_none_iff (w : FetchOutcome) :
    geocodeWithWorldGeocoder w = none ↔ ¬ tierReturnedCandidate w := by
  cases w with
  | error => simp [geocodeWithWorldGeocoder, tierReturnedCandidate]
  | httpFail => simp [geocodeWithWorldGeocoder, tierReturnedCandidate]
  | ok cs => cases cs <;> simp [geocodeWithWorldGeocoder, tierReturnedCandidate]

theorem geocode_fst_eq_none_iff (o w : FetchOutcome) :
    (geocodeWithArcGIS o w).1 = none ↔
      ¬ (tierReturnedCandidate o ∨ tierReturnedCandidate w) := by
  cases o with
  | error => simp [geocodeWithArcGIS, tierReturnedCandidate, worldGeocoder_eq_none_iff]
  | httpFail => simp [geocodeWithArcGIS, tierReturnedCandidate, worldGeocoder_eq_none_iff]
  | ok cs =>
      cases cs <;>
        simp [geocodeWithArcGIS, tierReturnedCandidate, worldGeocoder_eq_none_iff]

theorem geocode_fst_isSome_iff (o w : FetchOutcome) :
    ((geocodeWithArcGIS o w).1).isSome = true ↔
      (tierReturnedCandidate o ∨ tierReturnedCandidate w) := by
  rw [Option.isSome_iff_ne_none]
  simp [geocode_fst_eq_none_iff, not_or]
  tauto

theorem enrichOne_of_some (env : String → FetchOutcome × FetchOutcome)
    (inc : Bool) (i : ℕ) (s : PropertySuggestion) (g : GeoResult)
    (h : (geocodeWithArcGIS (env s.label).1 (env s.label).2).1 = some g) :
    enrichOne env inc i s =
      { normalized_address := s.label
        score := jsRound ((((max (100 - (i : ℤ) * 5) 50 : ℤ) : ℚ) + g.score) / 2)
        property_id := if s.value = "" then none else some s.value
        taxlot_id := none
        x_lon := g.x
        y_lat := g.y
        source := Source.arcgis_geocoder
        raw := if inc then some s else none } := by
  simp [enrichOne, h]

theorem enrichOne_of_none (env : String → FetchOutcome × FetchOutcome)
    (inc : Bool) (i : ℕ) (s : PropertySuggestion)
    (h : (geocodeWithArcGIS (env s.label).1 (env s.label).2).1 = none) :
    enrichOne env inc i s =
      { normalized_address := s.label
        score := max (100 - (i : ℤ) * 5) 50
        property_id := if s.value = "" then none else some s.value
        taxlot_id := none
        x_lon := fallbackLon
        y_lat := fallbackLat
        source := Source.portlandmaps_api
        raw := if inc then some s else none } := by
  simp [enrichOne, h]

theorem bboxFilter_sublist (b : Option (List ℚ)) (cs : List AddressCandidate) :
    (bboxFilter b cs).Sublist cs := by
  unfold bboxFilter
  split
  · exact List.filter_sublist cs
  · exact List.Sublist.refl cs

theorem resolveAddress_ok_candidates (env : String → FetchOutcome × FetchOutcome)
    (l : List PropertySuggestion) (q : String) (m : ℕ) (b : Option (List ℚ))
    (inc : Bool) (r : ResolveAddressResult)
    (h : resolveAddress env (SuggestOutcome.ok l) q m b inc = Except.ok r) :
    r.candidates = (bboxFilter b (enrichAll env inc l)).take m := by
  simp only [resolveAddress, Except.ok.injEq] at h
  subst h
  rfl

theorem candidates_sublist_enrichAll (env : String → FetchOutcome × FetchOutcome)
    (l : List PropertySuggestion) (q : String) (m : ℕ) (b : Option (List ℚ))
    (inc : Bool) (r : ResolveAddressResult)
    (h : resolveAddress env (SuggestOutcome.ok l) q m b inc = Except.ok r) :
    r.candidates.Sublist (enrichAll env inc l) := by
  rw [resolveAddress_ok_candidates env l q m b inc r h]
  exact (List.take_sublist m _).trans (bboxFilter_sublist b _)

theorem mem_candidates_elim (env : String → FetchOutcome × FetchOutcome)
    (l : List PropertySuggestion) (q : String) (m : ℕ) (b : Option (List ℚ))
    (inc : Bool) (r : ResolveAddressResult) (c : AddressCandidate)
    (h : resolveAddress env (SuggestOutcome.ok l) q m b inc = Except.ok r)
    (hc : c ∈ r.candidates) :
    ∃ i s, l[i]? = some s ∧ c = enrichOne env inc i s := by
  have hmem : c ∈ enrichAll env inc l :=
    (candidates_sublist_enrichAll env l q m b inc r h).subset hc
  simp only [enrichAll, List.mem_map] at hmem
  obtain ⟨⟨i, s⟩, hmem, rfl⟩ := hmem
  exact ⟨i, s, List.mem_enum_iff_getElem?.mp hmem, rfl⟩

/-- A sample suggestion used to instantiate theorems at concrete inputs. -/
def sampleSuggestion : PropertySuggestion :=
  { label := "100 SW MAIN ST", value := "R123456", type := "address",
    city := none, county := none }

/-- An environment in which both geocoder tiers error for every address. -/
def envAllFail : String → FetchOutcome × FetchOutcome :=
  fun _ => (FetchOutcome.error, FetchOutcome.error)

/-- An environment in which the region geocoder returns one candidate at
(-122, 45) with score 98 for every address. -/
def envRegionHit : String → FetchOutcome × FetchOutcome :=
  fun _ => (FetchOutcome.ok [⟨⟨-122, 45⟩, 98⟩], FetchOutcome.error)

/-- Claim C3: `resolveAddress` fails (throws) if and only if the suggestion
lookup fails (non-2xx or network/parse error); any failure in either
geocoder tier is absorbed (the environment `env` is universally
quantified, so it covers arbitrarily failing geocoders), and whenever the
suggestion service responds successfully, `resolveAddress` returns a
result rather than an error. -/
theorem C3_error_propagation :
    ∀ (env : String → FetchOutcome × FetchOutcome) (sugg : SuggestOutcome)
      (q : String) (m : ℕ) (b : Option (List ℚ)) (inc : Bool),
      (∃ r, resolveAddress env sugg q m b inc = Except.ok r) ↔
        ∃ l, sugg = SuggestOutcome.ok l := by
  intro env sugg q m b inc
  cases sugg <;> simp [resolveAddress]

/-- Claim C5: when the region (Oregon) geocoder succeeds with a non-empty
candidate list, the World geocoder is never invoked (the invocation flag
is `false` and the result does not depend on the World outcome), and the
geocoding result is the region geocoder's first candidate's location and
score. -/
theorem C5_region_short_circuit (w w' : FetchOutcome) (c : GeoCandidate)
    (cs : List GeoCandidate) :
    geocodeWithArcGIS (FetchOutcome.ok (c :: cs)) w =
      (some ⟨c.location.x, c.location.y, c.score⟩, false) ∧
    geocodeWithArcGIS (FetchOutcome.ok (c :: cs)) w =
      geocodeWithArcGIS (FetchOutcome.ok (c :: cs)) w' :=
  ⟨rfl, rfl⟩

/-- Claim C6: when the region geocoder call fails (error, non-2xx) or
returns an empty candidate set, the World geocoder is invoked with the
same address text and decides the outcome: a non-empty World response
yields its first candidate's location (and, through `enrichOne`, a
candidate tagged `arcgis_geocoder` carrying the World coordinates); if the
World tier also fails or is empty the resolver returns `none` rather than
an error. -/
theorem C6_world_fallback (o w : FetchOutcome) (h : tierFailedOrEmpty o) :
    (geocodeWithArcGIS o w).2 = true ∧
    (geocodeWithArcGIS o w).1 = geocodeWithWorldGeocoder w ∧
    (∀ (c : GeoCandidate) (cs : List GeoCandidate), w = FetchOutcome.ok (c :: cs) →
      (geocodeWithArcGIS o w).1 = some ⟨c.location.x, c.location.y, c.score⟩) ∧
    (tierFailedOrEmpty w → (geocodeWithArcGIS o w).1 = none) ∧
    (∀ (env : String → FetchOutcome × FetchOutcome) (inc : Bool) (i : ℕ)
      (s : PropertySuggestion) (c : GeoCandidate) (cs : List GeoCandidate),
      env s.label = (o, w) → w = FetchOutcome.ok (c :: cs) →
      (enrichOne env inc i s).source = Source.arcgis_geocoder ∧
      (enrichOne env inc i s).x_lon = c.location.x ∧
      (enrichOne env inc i s).y_lat = c.location.y) := by
  have hg : geocodeWithArcGIS o w = (geocodeWithWorldGeocoder w, true) := by
    rcases h with rfl | rfl | rfl <;> rfl
  refine ⟨by rw [hg], by rw [hg], ?_, ?_, ?_⟩
  · intro c cs hw
    subst hw
    rw [hg]
    rfl
  · intro hw
    rw [hg]
    rcases hw with rfl | rfl | rfl <;> rfl
  · intro env inc i s c cs henv hw
    subst hw
    have hres : (geocodeWithArcGIS (env s.label).1 (env s.label).2).1 =
        some ⟨c.location.x, c.location.y, c.score⟩ := by
      rw [henv]
      simpa using congrArg Prod.fst hg
    rw [enrichOne_of_some env inc i s _ hres]
    exact ⟨rfl, rfl, rfl⟩

/-- Witness for C6 at a concrete input: the region tier errors, the World
tier holds one candidate. -/
theorem C6_world_fallback_witness :
    (geocodeWithArcGIS FetchOutcome.error (FetchOutcome.ok [⟨⟨1, 2⟩, 3⟩])).2 = true :=
  (C6_world_fallback FetchOutcome.error (FetchOutcome.ok [⟨⟨1, 2⟩, 3⟩]) (by decide)).1

/-- Claim C9: the declared source value `internal_fallback` is unreachable:
every candidate returned by `resolveAddress` carries either
`arcgis_geocoder` (exactly when the geocoding resolver produced a match
for its address text) or `portlandmaps_api` (otherwise); no third
provenance value appears at the public interface. -/
theorem C9_internal_fallback_unreachable
    (env : String → FetchOutcome × FetchOutcome) (sugg : SuggestOutcome)
    (q : String) (m : ℕ) (b : Option (List ℚ)) (inc : Bool)
    (r : ResolveAddressResult)
    (h : resolveAddress env sugg q m b inc = Except.ok r) :
    ∀ c ∈ r.candidates,
      c.source ≠ Source.internal_fallback ∧
      (c.source = Source.arcgis_geocoder ∨ c.source = Source.portlandmaps_api) ∧
      (c.source = Source.arcgis_geocoder ↔
        ((geocodeWithArcGIS (env c.normalized_address).1
          (env c.normalized_address).2).1).isSome = true) := by
  intro c hc
  cases sugg with
  | error => simp [resolveAddress] at h
  | httpFail => simp [resolveAddress] at h
  | ok l =>
      obtain ⟨i, s, hgs, rfl⟩ := mem_candidates_elim env l q m b inc r c h hc
      rcases hres : (geocodeWithArcGIS (env s.label).1 (env s.label).2).1 with _ | g
      · rw [enrichOne_of_none env inc i s hres]
        simp [hres]
      · rw [enrichOne_of_some env inc i s g hres]
        simp [hres]

/-- Witness for C9 at a concrete input: both tiers error, the single
candidate's source is not `internal_fallback`. -/
theorem C9_internal_fallback_unreachable_witness :
    (enrichOne envAllFail false 0 sampleSuggestion).source ≠ Source.internal_fallback :=
  (C9_internal_fallback_unreachable envAllFail
      (SuggestOutcome.ok [sampleSuggestion]) "q" 10 none false
      ⟨[enrichOne envAllFail false 0 sampleSuggestion], "q", 10, none⟩ rfl
      (enrichOne envAllFail false 0 sampleSuggestion) (by simp)).1

/-- Counterexample to claim C1 as stated: with both geocoder tiers erroring
for the only suggestion, the returned candidate's source is
`portlandmaps_api`, not the declared fallback tag `internal_fallback` —
so "source = fallback tag ('internal_fallback') iff both geocoder tiers
failed or errored" is false at this input. -/
theorem C1_provenance_counterexample :
    (resolveAddress envAllFail (SuggestOutcome.ok [sampleSuggestion]) "q" 10
        none false).map (fun r => r.candidates.map (fun c => c.source)) =
      Except.ok [Source.portlandmaps_api] ∧
    tierFailedOrEmpty (envAllFail "100 SW MAIN ST").1 ∧
    tierFailedOrEmpty (envAllFail "100 SW MAIN ST").2 ∧
    Source.portlandmaps_api ≠ Source.internal_fallback :=
  ⟨rfl, by decide, by decide, by decide⟩

/-- Claim C1 (amended): for every returned candidate, source is the
geocoder-match tag `arcgis_geocoder` iff a geocoder call returned at least
one candidate for that suggestion's label text, and source is
`portlandmaps_api` — not the declared-but-unreachable `internal_fallback`
— iff both geocoder tiers failed, errored, or returned no candidates. -/
theorem C1_provenance (env : String → FetchOutcome × FetchOutcome)
    (sugg : SuggestOutcome) (q : String) (m : ℕ) (b : Option (List ℚ))
    (inc : Bool) (r : ResolveAddressResult)
    (h : resolveAddress env sugg q m b inc = Except.ok r) :
    ∀ c ∈ r.candidates,
      (c.source = Source.arcgis_geocoder ↔
        (tierReturnedCandidate (env c.normalized_address).1 ∨
         tierReturnedCandidate (env c.normalized_address).2)) ∧
      (c.source = Source.portlandmaps_api ↔
        ¬ (tierReturnedCandidate (env c.normalized_address).1 ∨
           tierReturnedCandidate (env c.normalized_address).2)) := by
  intro c hc
  cases sugg with
  | error => simp [resolveAddress] at h
  | httpFail => simp [resolveAddress] at h
  | ok l =>
      obtain ⟨i, s, hgs, rfl⟩ := mem_candidates_elim env l q m b inc r c h hc
      rcases hres : (geocodeWithArcGIS (env s.label).1 (env s.label).2).1 with _ | g
      · have hno := (geocode_fst_eq_none_iff (env s.label).1 (env s.label).2).mp hres
        rw [enrichOne_of_none env inc i s hres]
        simpa using hno
      · have hyes := (geocode_fst_isSome_iff (env s.label).1 (env s.label).2).mp
          (by rw [hres]; rfl)
        rw [enrichOne_of_some env inc i s g hres]
        simp [hyes]

/-- Witness for the amended C1 at a concrete input with both tiers
erroring. -/
theorem C1_provenance_witness :
    (enrichOne envAllFail false 0 sampleSuggestion).source = Source.portlandmaps_api ↔
      ¬ (tierReturnedCandidate (envAllFail "100 SW MAIN ST").1 ∨
         tierReturnedCandidate (envAllFail "100 SW MAIN ST").2) :=
  (C1_provenance envAllFail (SuggestOutcome.ok [sampleSuggestion]) "q" 10 none false
      ⟨[enrichOne envAllFail false 0 sampleSuggestion], "q", 10, none⟩ rfl
      (enrichOne envAllFail false 0 sampleSuggestion) (by simp)).2

/-- Claim C2: the per-candidate enrichment postcondition.  The suggestion
at zero-based position `i` yields the candidate at position `i`; its base
score is `max (100 - i*5) 50`; when the geocoding resolver returns a
match `g` the final score is `round ((baseScore + g.score) / 2)` and the
coordinates are the geocoder's; when it returns no match the score is the
base score and the coordinates are exactly (-122.6765, 45.5155). -/
theorem C2_enrichment (env : String → FetchOutcome × FetchOutcome)
    (inc : Bool) (l : List PropertySuggestion) (i : ℕ) (s : PropertySuggestion)
    (h : l[i]? = some s) :
    (enrichAll env inc l)[i]? = some (enrichOne env inc i s) ∧
    (∀ g, (geocodeWithArcGIS (env s.label).1 (env s.label).2).1 = some g →
      (enrichOne env inc i s).score =
        jsRound ((((max (100 - (i : ℤ) * 5) 50 : ℤ) : ℚ) + g.score) / 2) ∧
      (enrichOne env inc i s).x_lon = g.x ∧
      (enrichOne env inc i s).y_lat = g.y ∧
      (enrichOne env inc i s).source = Source.arcgis_geocoder) ∧
    ((geocodeWithArcGIS (env s.label).1 (env s.label).2).1 = none →
      (enrichOne env inc i s).score = max (100 - (i : ℤ) * 5) 50 ∧
      (enrichOne env inc i s).x_lon = -122.6765 ∧
      (enrichOne env inc i s).y_lat = 45.5155 ∧
      (enrichOne env inc i s).source = Source.portlandmaps_api) := by
  refine ⟨?_, ?_, ?_⟩
  · simp [enrichAll, List.getElem?_enum, h]
  · intro g hg
    rw [enrichOne_of_some env inc i s g hg]
    exact ⟨rfl, rfl, rfl, rfl⟩
  · intro hg
    rw [enrichOne_of_none env inc i s hg]
    exact ⟨rfl, rfl, rfl, rfl⟩

/-- Witness for C2 at a concrete input: one suggestion at position 0, both
geocoder tiers erroring. -/
theorem C2_enrichment_witness :
    (enrichAll envAllFail false [sampleSuggestion])[0]? =
      some (enrichOne envAllFail false 0 sampleSuggestion) :=
  (C2_enrichment envAllFail false [sampleSuggestion] 0 sampleSuggestion rfl).1

/-- All scores in a geocoder fetch outcome lie in [0, 100]. -/
def outcomeScoresBounded (o : FetchOutcome) : Prop :=
  match o with
  | FetchOutcome.ok cs => ∀ c ∈ cs, 0 ≤ c.score ∧ c.score ≤ 100
  | _ => True

/-- Every geocoder-supplied match score in the environment lies in
[0, 100]. -/
def envScoresBounded (env : String → FetchOutcome × FetchOutcome) : Prop :=
  ∀ a, outcomeScoresBounded (env a).1 ∧ outcomeScoresBounded (env a).2

theorem worldGeocoder_score_bounded (w : FetchOutcome)
    (hw : outcomeScoresBounded w) (g : GeoResult)
    (h : geocodeWithWorldGeocoder w = some g) : 0 ≤ g.score ∧ g.score ≤ 100 := by
  cases w with
  | error => simp [geocodeWithWorldGeocoder] at h
  | httpFail => simp [geocodeWithWorldGeocoder] at h
  | ok cs =>
      cases cs with
      | nil => simp [geocodeWithWorldGeocoder] at h
      | cons c rest =>
          simp only [geocodeWithWorldGeocoder, Option.some.injEq] at h
          subst h
          exact hw c (List.mem_cons_self c rest)

theorem geocode_score_bounded (o w : FetchOutcome)
    (ho : outcomeScoresBounded o) (hw : outcomeScoresBounded w) (g : GeoResult)
    (h : (geocodeWithArcGIS o w).1 = some g) : 0 ≤ g.score ∧ g.score ≤ 100 := by
  cases o with
  | error => exact worldGeocoder_score_bounded w hw g h
  | httpFail => exact worldGeocoder_score_bounded w hw g h
  | ok cs =>
      cases cs with
      | nil => exact worldGeocoder_score_bounded w hw g h
      | cons c rest =>
          simp only [geocodeWithArcGIS, Option.some.injEq] at h
          subst h
          exact ho c (List.mem_cons_self c rest)

theorem jsRound_blend_bounded (b : ℤ) (q : ℚ) (hb : 50 ≤ b) (hb' : b ≤ 100)
    (hq : 0 ≤ q) (hq' : q ≤ 100) :
    0 ≤ jsRound (((b : ℚ) + q) / 2) ∧ jsRound (((b : ℚ) + q) / 2) ≤ 100 := by
  unfold jsRound
  have hbq : (50 : ℚ) ≤ (b : ℚ) := by exact_mod_cast hb
  have hbq' : (b : ℚ) ≤ 100 := by exact_mod_cast hb'
  constructor
  · rw [Int.le_floor]
    push_cast
    linarith
  · rw [Int.floor_le_iff]
    push_cast
    linarith

/-- Claim C4: under the hypothesis that every geocoder-supplied match
score lies in [0, 100], every candidate returned by `resolveAddress` has
an integer score with 0 ≤ score ≤ 100. -/
theorem C4_score_range (env : String → FetchOutcome × FetchOutcome)
    (sugg : SuggestOutcome) (q : String) (m : ℕ) (b : Option (List ℚ))
    (inc : Bool) (r : ResolveAddressResult) (hb : envScoresBounded env)
    (h : resolveAddress env sugg q m b inc = Except.ok r) :
    ∀ c ∈ r.candidates, 0 ≤ c.score ∧ c.score ≤ 100 := by
  intro c hc
  cases sugg with
  | error => simp [resolveAddress] at h
  | httpFail => simp [resolveAddress] at h
  | ok l =>
      obtain ⟨i, s, hgs, rfl⟩ := mem_candidates_elim env l q m b inc r c h hc
      have hbase : (50 : ℤ) ≤ max (100 - (i : ℤ) * 5) 50 := le_max_right _ _
      have hbase' : max (100 - (i : ℤ) * 5) 50 ≤ 100 := by
        have : (0 : ℤ) ≤ (i : ℤ) := Int.natCast_nonneg i
        refine max_le ?_ ?_ <;> omega
      rcases hres : (geocodeWithArcGIS (env s.label).1 (env s.label).2).1 with _ | g
      · rw [enrichOne_of_none env inc i s hres]
        exact ⟨le_trans (by norm_num) hbase, hbase'⟩
      · have hscore := geocode_score_bounded (env s.label).1 (env s.label).2
          (hb s.label).1 (hb s.label).2 g hres
        rw [enrichOne_of_some env inc i s g hres]
        exact jsRound_blend_bounded _ _ hbase hbase' hscore.1 hscore.2

/-- Witness for C4 at a concrete input with both tiers erroring. -/
theorem C4_score_range_witness :
    0 ≤ (enrichOne envAllFail false 0 sampleSuggestion).score ∧
      (enrichOne envAllFail false 0 sampleSuggestion).score ≤ 100 :=
  C4_score_range envAllFail (SuggestOutcome.ok [sampleSuggestion]) "q" 10 none false
    ⟨[enrichOne envAllFail false 0 sampleSuggestion], "q", 10, none⟩
    (fun _ => ⟨trivial, trivial⟩) rfl
    (enrichOne envAllFail false 0 sampleSuggestion) (by simp)

/-- Claim C7: the bounding-box filter contract.  When a four-component
bbox `[minLon, minLat, maxLon, maxLat]` is supplied, every output
candidate lies inside the box; the output is the filtered enrichment list
truncated afterwards to `maxResults`; the returned count is
`min maxResults |filtered set|`; and the filter is a no-op when the bbox
does not have exactly four components or is absent. -/
theorem C7_bbox_filter (env : String → FetchOutcome × FetchOutcome)
    (l : List PropertySuggestion) (q : String) (m : ℕ) (mn mnl mx mxl : ℚ)
    (inc : Bool) (r : ResolveAddressResult)
    (h : resolveAddress env (SuggestOutcome.ok l) q m
        (some [mn, mnl, mx, mxl]) inc = Except.ok r) :
    (∀ c ∈ r.candidates,
      mn ≤ c.x_lon ∧ c.x_lon ≤ mx ∧ mnl ≤ c.y_lat ∧ c.y_lat ≤ mxl) ∧
    r.candidates =
      (bboxFilter (some [mn, mnl, mx, mxl]) (enrichAll env inc l)).take m ∧
    r.candidates.length =
      min m (bboxFilter (some [mn, mnl, mx, mxl]) (enrichAll env inc l)).length ∧
    (∀ (b : List ℚ) (cs : List AddressCandidate), b.length ≠ 4 →
      bboxFilter (some b) cs = cs) ∧
    (∀ cs : List AddressCandidate, bboxFilter none cs = cs) := by
  have hcand := resolveAddress_ok_candidates env l q m
    (some [mn, mnl, mx, mxl]) inc r h
  refine ⟨?_, hcand, ?_, ?_, fun cs => rfl⟩
  · intro c hc
    rw [hcand] at hc
    have hmem : c ∈ bboxFilter (some [mn, mnl, mx, mxl]) (enrichAll env inc l) :=
      List.take_subset m _ hc
    simp only [bboxFilter, List.mem_filter, decide_eq_true_eq] at hmem
    exact hmem.2
  · rw [hcand, List.length_take]
  · intro b cs hb
    unfold bboxFilter
    split
    · rename_i heq
      rw [Option.some.injEq] at heq
      subst heq
      simp at hb
    · rfl

/-- Witness for C7 at a concrete input: one suggestion whose region
geocode lands at (-122, 45), inside the bbox [-123, 45, -122, 46]. -/
theorem C7_bbox_filter_witness :
    -123 ≤ (enrichOne envRegionHit false 0 sampleSuggestion).x_lon ∧
      (enrichOne envRegionHit false 0 sampleSuggestion).x_lon ≤ -122 ∧
      45 ≤ (enrichOne envRegionHit false 0 sampleSuggestion).y_lat ∧
      (enrichOne envRegionHit false 0 sampleSuggestion).y_lat ≤ 46 :=
  (C7_bbox_filter envRegionHit [sampleSuggestion] "q" 10 (-123) 45 (-122) 46 false
      ⟨[enrichOne envRegionHit false 0 sampleSuggestion], "q", 10,
        some [-123, 45, -122, 46]⟩ rfl).1
    (enrichOne envRegionHit false 0 sampleSuggestion) (by simp)

/-- Counterexample to claim C8 as stated: two suggestions "A" and "B";
the bbox [5, 5, 15, 15] excludes A's geocoded point (0, 0) but contains
B's point (10, 10); with `maxResults = 1` there is a surviving suggestion,
yet the single returned candidate corresponds to the second raw
suggestion "B", not the first raw suggestion "A". -/
theorem C8_order_counterexample :
    (resolveAddress
        (fun label => if label = "A"
          then (FetchOutcome.ok [⟨⟨0, 0⟩, 90⟩], FetchOutcome.error)
          else (FetchOutcome.ok [⟨⟨10, 10⟩, 90⟩], FetchOutcome.error))
        (SuggestOutcome.ok
          [{ label := "A", value := "1", type := "address", city := none, county := none },
           { label := "B", value := "2", type := "address", city := none, county := none }])
        "q" 1 (some [5, 5, 15, 15]) false).map
        (fun r => r.candidates.map (fun c => c.normalized_address)) =
      Except.ok ["B"] ∧ ("B" : String) ≠ "A" :=
  ⟨rfl, by decide⟩

/-- Claim C8 (amended): the returned candidate sequence is an
order-preserving subsequence of the enriched-in-input-order list (elements
removed only by the bounding-box filter or truncation); and with
`maxResults = 1`, no bbox, and a non-empty suggestion list, the single
returned candidate is the enrichment of the first raw suggestion (when a
bbox is supplied it is the first *surviving* suggestion instead). -/
theorem C8_order_preservation (env : String → FetchOutcome × FetchOutcome)
    (l : List PropertySuggestion) (q : String) (m : ℕ) (b : Option (List ℚ))
    (inc : Bool) (r : ResolveAddressResult)
    (h : resolveAddress env (SuggestOutcome.ok l) q m b inc = Except.ok r) :
    r.candidates.Sublist (enrichAll env inc l) ∧
    (b = none → m = 1 → ∀ (s : PropertySuggestion) (rest : List PropertySuggestion),
      l = s :: rest → r.candidates = [enrichOne env inc 0 s]) := by
  refine ⟨candidates_sublist_enrichAll env l q m b inc r h, ?_⟩
  rintro rfl rfl s rest rfl
  rw [resolveAddress_ok_candidates env (s :: rest) q 1 none inc r h]
  simp [bboxFilter, enrichAll, List.enum_cons]

/-- Witness for the amended C8 at a concrete input: one suggestion, no
bbox, `maxResults = 1`. -/
theorem C8_order_preservation_witness :
    (({ candidates := [enrichOne envAllFail false 0 sampleSuggestion],
        query := "q", max_results := 1, bbox := none } :
        ResolveAddressResult)).candidates = [enrichOne envAllFail false 0 sampleSuggestion] :=
  (C8_order_preservation envAllFail [sampleSuggestion] "q" 1 none false
      ⟨[enrichOne envAllFail false 0 sampleSuggestion], "q", 1, none⟩ rfl).2
    rfl rfl sampleSuggestion [] rfl

/-- Claim C10: the suggestion request carries `count = maxResults`, and —
assuming the suggestion service honors the requested count
(`l.length ≤ m`) — exactly one geocoding resolution is launched per raw
suggestion (at most `m` of them), truncation is a no-op, so bbox
filtering can only shrink the result below `maxResults` and removed
candidates are never backfilled. -/
theorem C10_count_limit (encode : String → String)
    (env : String → FetchOutcome × FetchOutcome) (l : List PropertySuggestion)
    (q : String) (m : ℕ) (b : Option (List ℚ)) (inc : Bool)
    (r : ResolveAddressResult) (hlen : l.length ≤ m)
    (h : resolveAddress env (SuggestOutcome.ok l) q m b inc = Except.ok r) :
    suggestRequestUrl encode q m =
      "https://www.portlandmaps.com/api" ++ "/suggest/?query=" ++ encode q ++
        "&city=Portland&count=" ++ toString m ∧
    (enrichAll env inc l).length = l.length ∧
    (enrichAll env inc l).length ≤ m ∧
    r.candidates = bboxFilter b (enrichAll env inc l) ∧
    r.candidates.length ≤ m := by
  have hlen' : (enrichAll env inc l).length = l.length := by
    simp [enrichAll, List.enum_length]
  have hfle : (bboxFilter b (enrichAll env inc l)).length ≤ m := by
    calc (bboxFilter b (enrichAll env inc l)).length
        ≤ (enrichAll env inc l).length := (bboxFilter_sublist b _).length_le
      _ = l.length := hlen'
      _ ≤ m := hlen
  have hcand : r.candidates = bboxFilter b (enrichAll env inc l) := by
    rw [resolveAddress_ok_candidates env l q m b inc r h]
    exact List.take_of_length_le hfle
  exact ⟨rfl, hlen', hlen' ▸ hlen, hcand, hcand ▸ hfle⟩

/-- Witness for C10 at a concrete input: one suggestion, `maxResults = 10`. -/
theorem C10_count_limit_witness :
    [enrichOne envAllFail false 0 sampleSuggestion].length ≤ 10 :=
  (C10_count_limit (fun a => a) envAllFail [sampleSuggestion] "q" 10 none false
      ⟨[enrichOne envAllFail false 0 sampleSuggestion], "q", 10, none⟩
      (by norm_num) rfl).2.2.2.2

end PortlandMaps
